import Mathlib

/-!
Sales bonus report (`src/src/main.js`).

A shallow embedding of `calculateSimpleRevenue`, `calculateBonusByProfit` and
`analyzeSalesData`, followed by theorems about them.

Modelling conventions.

* A JavaScript number is a finite value, kept as an exact rational, or `NaN` (`Num`).
  The fields of the input and the results of the two strategies are finite; the
  infinities and binary rounding error are outside the model.
* A plain JavaScript object (`Object.fromEntries(...)`, `{}`) is the list of its own
  properties in creation order (`Obj`), on top of what it inherits from
  `Object.prototype`: the property read `o[k]` (`Obj.read`) finds the own property, else
  the inherited member when `k` names one, else `undefined`.
* The mutable array `sellerStats` is threaded through the loops as a list; a
  reference to one of its objects is its position in that list.
* `Array.prototype.sort` is stable and reads a comparator result `NaN` as `0`; it is
  modelled by a stable insertion sort.  With three or more elements, one of them `NaN`,
  the comparator need not be consistent, and ECMAScript then leaves the order to the
  implementation: the model gives the order of that insertion sort.  The evaluations
  below sort at most two elements when a `NaN` is among them; the order is then kept by
  every stable sort.
-/

namespace SalesBonus

/-! ## Data model -/

/-- A JavaScript number: a finite value or `NaN`. -/
inductive Num where
  /-- A finite number. -/
  | finite (q : ℚ) : Num
  /-- The value `NaN`. -/
  | nan : Num
deriving DecidableEq, Repr

instance : Coe ℚ Num := ⟨Num.finite⟩

instance (n : Nat) : OfNat Num n := ⟨Num.finite n⟩

/-- The operator `+` on two numbers. -/
def Num.add : Num → Num → Num
  | .finite a, .finite b => .finite (a + b)
  | _, _ => .nan

/-- The operator `-` on two numbers. -/
def Num.sub : Num → Num → Num
  | .finite a, .finite b => .finite (a - b)
  | _, _ => .nan

/-- The operator `*` on two numbers. -/
def Num.mul : Num → Num → Num
  | .finite a, .finite b => .finite (a * b)
  | _, _ => .nan

instance : Add Num := ⟨Num.add⟩

instance : Sub Num := ⟨Num.sub⟩

instance : Mul Num := ⟨Num.mul⟩

/-- The operator `>=` on two numbers: false as soon as one of them is `NaN`. -/
def Num.ge : Num → Num → Prop
  | .finite a, .finite b => a ≥ b
  | _, _ => False

/-- Whether a comparator result leaves its first argument in front: the result is
negative, zero, or `NaN` (which `sort` reads as `0`). -/
def Num.keepsOrder : Num → Prop
  | .finite d => d ≤ 0
  | .nan => True

instance (a b : Num) : Decidable (Num.ge a b) := by
  cases a <;> cases b <;> unfold Num.ge <;> infer_instance

instance (v : Num) : Decidable v.keepsOrder := by
  cases v <;> unfold Num.keepsOrder <;> infer_instance

/-- One line of a receipt (an element of `record.items`). -/
structure Item where
  sku : String
  quantity : ℚ
  discount : ℚ
  sale_price : ℚ
deriving DecidableEq, Repr

/-- A catalog entry (an element of `data.products`). -/
structure Product where
  sku : String
  purchase_price : ℚ
  sale_price : ℚ
deriving DecidableEq, Repr

/-- A receipt (an element of `data.purchase_records`). -/
structure PurchaseRecord where
  seller_id : String
  total_amount : ℚ
  total_discount : ℚ
  items : List Item
deriving DecidableEq, Repr

/-- A roster entry (an element of `data.sellers`). -/
structure Seller where
  id : String
  first_name : String
  last_name : String
deriving DecidableEq, Repr

/-- The own properties of a plain object, in creation order. -/
abbrev Obj (β : Type) := List (String × β)

/-- What a property read `o[k]` on a plain object finds. -/
inductive Lookup (β : Type) where
  /-- An own property, with its value. -/
  | own (v : β) : Lookup β
  /-- No own property, but the member of `Object.prototype` of that name: a function, or
  `Object.prototype` itself for `__proto__`.  It is truthy and has none of the fields of
  a seller or a product. -/
  | inherited (name : String) : Lookup β
  /-- Neither: the read gives `undefined`. -/
  | undefined : Lookup β
deriving DecidableEq, Repr

/-- The own enumerable properties the spread `{ ...value }` copies from what a property
read found: the fields of an own roster entry, and nothing from an inherited member or
from `undefined`. -/
def Lookup.ownFields {β : Type} : Lookup β → Option β
  | .own v => some v
  | .inherited _ => none
  | .undefined => none

/-- A value held by `products_sold` under a SKU. -/
inductive Sold where
  /-- A number. -/
  | number (n : Num) : Sold
  /-- The string that `+=` makes of the inherited member `Object.prototype[name]`: the
  text of that member followed by the decimal forms of the numbers `appended`, in this
  order, as in `"function Object() { [native code] }5"` for the name `constructor` and the
  number 5. -/
  | text (name : String) (appended : List ℚ) : Sold
deriving DecidableEq, Repr

/-- The entry `{ sku, quantity }` of `top_products`. -/
structure TopProduct where
  sku : String
  quantity : Sold
deriving DecidableEq, Repr

/-- The per-seller accumulator built at lines 91-98. -/
structure SellerStats where
  id : String
  name : String
  revenue : ℚ
  profit : Num
  sales_count : Nat
  products_sold : Obj Sold
deriving DecidableEq, Repr

/-- The object `{ ...sellerData, profit: seller.profit }` handed to `calculateBonus`
(line 161); `roster` is `sellersIndex[seller.id]`. -/
structure SellerView where
  roster : Option Seller
  profit : Num
deriving DecidableEq, Repr

/-- A seller object after the bonus loop (lines 158-176) has added `bonus` and
`top_products` to it. -/
structure RankedStats where
  stats : SellerStats
  bonus : Num
  top_products : List TopProduct
deriving DecidableEq, Repr

/-- One record of the returned collection (lines 179-187). -/
structure RankedResult where
  seller_id : String
  name : String
  revenue : ℚ
  profit : Num
  sales_count : Nat
  top_products : List TopProduct
  bonus : Num
deriving DecidableEq, Repr

/-- The signature of `options.calculateRevenue`. -/
abbrev RevenueFn := Item → Product → ℚ

/-- The signature of `options.calculateBonus`. -/
abbrev BonusFn := Nat → Nat → SellerView → ℚ

/-- A property of `data` that should hold an array. -/
inductive Coll (α : Type) where
  /-- The property is absent or holds a falsy value. -/
  | missing : Coll α
  /-- The property holds a truthy value that is not an array. -/
  | notArray : Coll α
  /-- The property holds an array. -/
  | array (xs : List α) : Coll α

/-- The argument `data` when it is truthy. -/
structure Data where
  purchase_records : Coll PurchaseRecord
  products : Coll Product
  sellers : Coll Seller

/-- A property of `options` that should hold a function. -/
inductive Slot (φ : Type) where
  /-- The property is absent: it reads `undefined`. -/
  | missing : Slot φ
  /-- The property holds a falsy value other than `undefined`: `null`, `0`, `NaN`, `''`
  or `false`. -/
  | falsy : Slot φ
  /-- The property holds a truthy value that is not a function. -/
  | notFunction : Slot φ
  /-- The property holds a function. -/
  | fn (f : φ) : Slot φ

/-- The argument `options`. -/
inductive Options where
  /-- A falsy value (`undefined`, `null`, ...). -/
  | falsy : Options
  /-- A truthy value whose `typeof` is not `'object'`. -/
  | notObject : Options
  /-- An object, with the two properties the function destructures. -/
  | object (calculateRevenue : Slot RevenueFn) (calculateBonus : Slot BonusFn) : Options

/-- The ways a call of `analyzeSalesData` ends in an exception: the six errors of the
input checks, named as in the specification, and the `TypeError` of the aggregation
loop. -/
inductive AnalysisError where
  /-- Thrown at line 57: no purchase records. -/
  | MissingPurchaseData
  /-- Thrown at line 63: no products. -/
  | MissingProductData
  /-- Thrown at line 69: no sellers. -/
  | MissingSellerData
  /-- Thrown at line 75: options absent or not an object. -/
  | InvalidConfiguration
  /-- Thrown at line 82: a calculation function is not provided. -/
  | MissingStrategy
  /-- Thrown at line 87: a calculation entry is not a function. -/
  | StrategyNotCallable
  /-- Thrown by the runtime at line 145, on reading a property of `undefined`. -/
  | TypeError
deriving DecidableEq, Repr

-- Two outcomes of a call are compared by their constructors and payloads.
deriving instance DecidableEq for Except

/-! ## Library operations -/

/-- The names of the members a plain object inherits from `Object.prototype` (ECMAScript
with Annex B).  All of them are functions, except `__proto__`, an accessor that reads as
`Object.prototype`. -/
def objectPrototypeNames : List String :=
  [ "constructor", "__defineGetter__", "__defineSetter__", "hasOwnProperty",
    "__lookupGetter__", "__lookupSetter__", "isPrototypeOf", "propertyIsEnumerable",
    "toString", "valueOf", "__proto__", "toLocaleString" ]

/-- The own property of `o` stored under `k`, if there is one. -/
def Obj.getOwn {β : Type} : Obj β → String → Option β
  | [], _ => none
  | (k', v) :: rest, k => if k' = k then some v else Obj.getOwn rest k

/-- The property read `o[k]` on a plain object: the own property, else the member
inherited from `Object.prototype`, else `undefined`. -/
def Obj.read {β : Type} (o : Obj β) (k : String) : Lookup β :=
  match Obj.getOwn o k with
  | some v => .own v
  | none => if k ∈ objectPrototypeNames then .inherited k else .undefined

/-- Creating or overwriting the own property `k` (`CreateDataProperty`): an existing
property keeps its place, a new one goes last. -/
def Obj.set {β : Type} : Obj β → String → β → Obj β
  | [], k, v => [(k, v)]
  | (k', v') :: rest, k, v =>
    if k' = k then (k, v) :: rest else (k', v') :: Obj.set rest k v

/-- The assignment `o[k] = v` of a number or a string.  It creates or overwrites the own
property, except for `__proto__` when it is not an own property: the inherited setter
is called and ignores a value that is not an object. -/
def Obj.assign {β : Type} (o : Obj β) (k : String) (v : β) : Obj β :=
  if k = "__proto__" ∧ (Obj.getOwn o k).isNone = true then o else Obj.set o k v

/-- The function `Object.fromEntries`: the entries are defined one after another as own
properties. -/
def fromEntries {β : Type} (entries : List (String × β)) : Obj β :=
  entries.foldl (fun o e => Obj.set o e.1 e.2) []

/-- The array index a property key denotes, if any: the canonical decimal
numeral of a number below `2^32 - 1`. -/
def arrayIndex? (key : String) : Option Nat :=
  let cs := key.data
  if cs ≠ [] ∧ cs.all Char.isDigit ∧ (cs.head? ≠ some '0' ∨ cs.length = 1) then
    let n := cs.foldl (fun acc c => 10 * acc + (c.toNat - 48)) 0
    if n < 4294967295 then some n else none
  else none

/-- The function `Object.entries`: the own properties, array-index keys in ascending
order first, then the other keys in creation order. -/
def entries {β : Type} (o : Obj β) : List (String × β) :=
  ((o.filterMap (fun e => (arrayIndex? e.1).map (fun n => (n, e)))).insertionSort
      (fun a b => a.1 ≤ b.1)).map Prod.snd
    ++ o.filter (fun e => (arrayIndex? e.1).isNone)

/-- The expression `+x.toFixed(2)` on a finite number: the nearest multiple of `1/100`,
the larger in magnitude when two are equally near. -/
def toFixed2 (x : ℚ) : ℚ :=
  if x < 0 then -((Rat.floor (-x * 100 + 1 / 2) : ℤ) : ℚ) / 100
  else ((Rat.floor (x * 100 + 1 / 2) : ℤ) : ℚ) / 100

/-- The expression `+x.toFixed(2)` on a number: `NaN.toFixed(2)` is the string `"NaN"`,
which `+` reads back as `NaN`. -/
def Num.toFixed2 : Num → Num
  | .finite q => .finite (SalesBonus.toFixed2 q)
  | .nan => .nan

/-- Whether `!value` is true for a value held by `products_sold`: the number `0` or `NaN`.
A `text` is a non-empty string, hence truthy. -/
def Sold.falsy : Sold → Bool
  | .number (.finite q) => decide (q = 0)
  | .number .nan => true
  | .text _ _ => false

/-- The number a value held by `products_sold` converts to in `b.quantity - a.quantity`:
a `text` starts with the text of an inherited member, which is no numeral, and converts to
`NaN`. -/
def Sold.toNumber : Sold → Num
  | .number n => n
  | .text _ _ => .nan

/-- The value of `value + quantity` for what `products_sold[sku]` reads: a sum of numbers,
or a string concatenation when the value read is a string or an inherited member
(`undefined + quantity` is `NaN`). -/
def Sold.plus : Lookup Sold → ℚ → Sold
  | .own (.number n), quantity => .number (n + quantity)
  | .own (.text name appended), quantity => .text name (appended ++ [quantity])
  | .inherited name, quantity => .text name [quantity]
  | .undefined, _ => .number .nan

/-! ## The two default strategies -/

/-- The function `calculateSimpleRevenue` (lines 7-17). -/
def calculateSimpleRevenue (purchase : Item) (_product : Product) : ℚ :=
  let discountCoefficient := 1 - purchase.discount / 100
  purchase.sale_price * purchase.quantity * discountCoefficient

/-- The function `calculateBonusByProfit` (lines 26-43).  `total - 1` is computed
over the integers, as in the source. -/
def calculateBonusByProfit (index total : Nat) (_seller : SellerView) : ℚ :=
  if index = 0 then 15 / 100
  else if index = 1 ∨ index = 2 then 10 / 100
  else if (index : ℤ) = (total : ℤ) - 1 then 0
  else 5 / 100

/-! ## `analyzeSalesData` -/

/-- Lines 91-98: one fresh accumulator per roster entry. -/
def initStats (sellers : List Seller) : List SellerStats :=
  sellers.map (fun seller =>
    { id := seller.id
      name := seller.first_name ++ " " ++ seller.last_name
      revenue := 0
      profit := 0
      sales_count := 0
      products_sold := [] })

/-- Line 102: `sellerIndex`, from seller id to (a reference to) its accumulator. -/
def sellerIndex (sellerStats : List SellerStats) : Obj Nat :=
  fromEntries (sellerStats.enum.map (fun e => (e.2.id, e.1)))

/-- Line 105: `sellersIndex`, from seller id to roster entry. -/
def sellersIndex (sellers : List Seller) : Obj Seller :=
  fromEntries (sellers.map (fun seller => (seller.id, seller)))

/-- Line 108: `productIndex`, from SKU to catalog entry. -/
def productIndex (products : List Product) : Obj Product :=
  fromEntries (products.map (fun product => (product.sku, product)))

/-- Lines 145-149: count `quantity` more units of `sku`.  The test
`!products_sold[sku]` succeeds on `undefined`, `0` and `NaN`; it fails on an inherited
member, so that line 149 then appends `quantity` to the text of that member. -/
def addSold (products_sold : Obj Sold) (sku : String) (quantity : ℚ) : Obj Sold :=
  let sold :=
    match Obj.read products_sold sku with
    | .undefined => Obj.assign products_sold sku (.number 0)
    | .own v => if v.falsy then Obj.assign products_sold sku (.number 0) else products_sold
    | .inherited _ => products_sold
  Obj.assign sold sku (Sold.plus (Obj.read sold sku) quantity)

/-- Lines 125-150: the body of the loop over `record.items`, for a seller that is an
accumulator.  When `productIndex[item.sku]` is an inherited member, `purchase_price` is
`undefined`, the cost is `NaN`, and so is `itemRevenue - cost` whatever number
`calculateRevenue` returns. -/
def processItem (calculateRevenue : RevenueFn) (index : Obj Product)
    (seller : SellerStats) (item : Item) : SellerStats :=
  match Obj.read index item.sku with
  | .undefined => seller
  | .own product =>
    let cost := product.purchase_price * item.quantity
    let itemRevenue := calculateRevenue item product
    let itemProfit := itemRevenue - cost
    { seller with
      profit := seller.profit + itemProfit
      products_sold := addSold seller.products_sold item.sku item.quantity }
  | .inherited _ =>
    let itemProfit := Num.nan
    { seller with
      profit := seller.profit + itemProfit
      products_sold := addSold seller.products_sold item.sku item.quantity }

/-- Lines 118-150: what a receipt does to the accumulator of its seller. -/
def processSale (calculateRevenue : RevenueFn) (index : Obj Product)
    (record : PurchaseRecord) (seller : SellerStats) : SellerStats :=
  record.items.foldl (processItem calculateRevenue index)
    { seller with
      sales_count := seller.sales_count + 1
      revenue := seller.revenue + (record.total_amount - record.total_discount) }

/-- Lines 111-151: the body of the loop over `data.purchase_records`.  When
`sellerIndex[record.seller_id]` is an inherited member, line 115 does not return; lines
119-122 store `NaN` on that member, and the first item for which `productIndex[item.sku]`
is truthy reaches line 145, where `seller.products_sold` is `undefined`: a `TypeError` is
thrown.  Without such an item the receipt changes no accumulator; the `NaN` stored on the
inherited member is falsy and is read by nothing that follows. -/
def processRecord (calculateRevenue : RevenueFn) (index : Obj Product)
    (refs : Obj Nat) (sellerStats : List SellerStats) (record : PurchaseRecord) :
    Except AnalysisError (List SellerStats) :=
  match Obj.read refs record.seller_id with
  | .undefined => .ok sellerStats
  | .own ref => .ok (sellerStats.modify (processSale calculateRevenue index record) ref)
  | .inherited _ =>
    if record.items.any (fun item => decide (Obj.read index item.sku ≠ .undefined)) then
      .error .TypeError
    else .ok sellerStats

/-- Lines 91-151: the accumulators after every receipt has been processed, unless a
receipt throws. -/
def aggregate (purchase_records : List PurchaseRecord) (products : List Product)
    (sellers : List Seller) (calculateRevenue : RevenueFn) :
    Except AnalysisError (List SellerStats) :=
  let sellerStats := initStats sellers
  purchase_records.foldlM
    (processRecord calculateRevenue (productIndex products) (sellerIndex sellerStats))
    sellerStats

/-- Line 154: `sellerStats.sort((a, b) => b.profit - a.profit)`. -/
def sortByProfit (sellerStats : List SellerStats) : List SellerStats :=
  sellerStats.insertionSort (fun a b => (b.profit - a.profit).keepsOrder)

/-- Lines 172-174: the products of one seller sorted by quantity, before `slice(0, 10)`
cuts the list. -/
def sortedProducts (products_sold : Obj Sold) : List TopProduct :=
  ((entries products_sold).map
      (fun e => ({ sku := e.1, quantity := e.2 } : TopProduct))).insertionSort
    (fun a b => (b.quantity.toNumber - a.quantity.toNumber).keepsOrder)

/-- Lines 172-175: the ten best-selling products of one seller. -/
def topProducts (products_sold : Obj Sold) : List TopProduct :=
  (sortedProducts products_sold).take 10

/-- Lines 158-176: the body of the bonus loop, for the seller at position `index`.
`calculateBonus` returns a finite number. -/
def assignBonus (calculateBonus : BonusFn) (roster : Obj Seller) (total : Nat)
    (index : Nat) (seller : SellerStats) : RankedStats :=
  let sellerData := Obj.read roster seller.id
  let sellerWithProfit : SellerView :=
    { roster := sellerData.ownFields, profit := seller.profit }
  let bonusPercent := calculateBonus index total sellerWithProfit
  { stats := seller
    bonus := seller.profit * bonusPercent
    top_products := topProducts seller.products_sold }

/-- Lines 179-187: the shape of one returned record. -/
def formatResult (seller : RankedStats) : RankedResult :=
  { seller_id := seller.stats.id
    name := seller.stats.name
    revenue := toFixed2 seller.stats.revenue
    profit := seller.stats.profit.toFixed2
    sales_count := seller.stats.sales_count
    top_products := seller.top_products
    bonus := seller.bonus.toFixed2 }

/-- Lines 153-176: the sorted accumulators with `bonus` and `top_products` set. -/
def rank (sellerStats : List SellerStats) (sellers : List Seller)
    (calculateBonus : BonusFn) : List RankedStats :=
  let sorted := sortByProfit sellerStats
  let total := sorted.length
  sorted.enum.map (fun e => assignBonus calculateBonus (sellersIndex sellers) total e.1 e.2)

/-- Lines 90-187: the computation that follows the input checks. -/
def report (purchase_records : List PurchaseRecord) (products : List Product)
    (sellers : List Seller) (calculateRevenue : RevenueFn) (calculateBonus : BonusFn) :
    Except AnalysisError (List RankedResult) :=
  match aggregate purchase_records products sellers calculateRevenue with
  | .error e => .error e
  | .ok sellerStats => .ok ((rank sellerStats sellers calculateBonus).map formatResult)

/-- The function `analyzeSalesData` (lines 51-188). -/
def analyzeSalesData (data : Option Data) (options : Options) :
    Except AnalysisError (List RankedResult) :=
  match data with
  | none => .error .MissingPurchaseData
  | some data =>
    match data.purchase_records with
    | .missing => .error .MissingPurchaseData
    | .notArray => .error .MissingPurchaseData
    | .array [] => .error .MissingPurchaseData
    | .array (r :: rs) =>
      match data.products with
      | .missing => .error .MissingProductData
      | .notArray => .error .MissingProductData
      | .array [] => .error .MissingProductData
      | .array (p :: ps) =>
        match data.sellers with
        | .missing => .error .MissingSellerData
        | .notArray => .error .MissingSellerData
        | .array [] => .error .MissingSellerData
        | .array (s :: ss) =>
          match options with
          | .falsy => .error .InvalidConfiguration
          | .notObject => .error .InvalidConfiguration
          | .object .missing _ => .error .MissingStrategy
          | .object .falsy _ => .error .MissingStrategy
          | .object _ .missing => .error .MissingStrategy
          | .object _ .falsy => .error .MissingStrategy
          | .object .notFunction _ => .error .StrategyNotCallable
          | .object _ .notFunction => .error .StrategyNotCallable
          | .object (.fn calculateRevenue) (.fn calculateBonus) =>
            report (r :: rs) (p :: ps) (s :: ss) calculateRevenue calculateBonus

/-! ## The input checks, as predicates -/

/-- Whether a property of `data` passes its check: it holds a non-empty array. -/
def Coll.nonEmptyArray {α : Type} : Coll α → Bool
  | .array (_ :: _) => true
  | _ => false

/-- Whether a property of `options` holds a value at all (anything but `undefined`). -/
def Slot.supplied {φ : Type} : Slot φ → Bool
  | .missing => false
  | _ => true

/-- Whether `!value` is false for the value a property of `options` holds. -/
def Slot.truthy {φ : Type} : Slot φ → Bool
  | .missing => false
  | .falsy => false
  | _ => true

/-- Whether `typeof value === 'function'` for the value a property of `options` holds. -/
def Slot.callable {φ : Type} : Slot φ → Bool
  | .fn _ => true
  | _ => false

/-- Whether `options` is truthy and `typeof options === 'object'`. -/
def Options.isObject : Options → Bool
  | .object _ _ => true
  | _ => false

/-- The property `calculateRevenue` of `options`. -/
def Options.calculateRevenue : Options → Slot RevenueFn
  | .object calculateRevenue _ => calculateRevenue
  | _ => .missing

/-- The property `calculateBonus` of `options`. -/
def Options.calculateBonus : Options → Slot BonusFn
  | .object _ calculateBonus => calculateBonus
  | _ => .missing

/-- Specification: the six conditions of the input validator (§4.1) hold together. -/
def passesValidation (data : Option Data) (options : Options) : Prop :=
  (∃ d, data = some d ∧ d.purchase_records.nonEmptyArray = true ∧
    d.products.nonEmptyArray = true ∧ d.sellers.nonEmptyArray = true) ∧
  options.isObject = true ∧
  (options.calculateRevenue.truthy = true ∧ options.calculateBonus.truthy = true) ∧
  (options.calculateRevenue.callable = true ∧ options.calculateBonus.callable = true)

/-- The argument `data` made of three arrays. -/
def Data.ofArrays (purchase_records : List PurchaseRecord) (products : List Product)
    (sellers : List Seller) : Option Data :=
  some { purchase_records := .array purchase_records
         products := .array products
         sellers := .array sellers }

/-- The argument `options` holding two functions. -/
def Options.ofFunctions (calculateRevenue : RevenueFn) (calculateBonus : BonusFn) : Options :=
  .object (.fn calculateRevenue) (.fn calculateBonus)

/-- The argument `options` holding the two default strategies of the module. -/
def defaultOptions : Options :=
  Options.ofFunctions calculateSimpleRevenue calculateBonusByProfit

/-! ## A small worked input -/

/-- Two roster sellers. -/
def demoSellers : List Seller :=
  [ { id := "s1", first_name := "Ann", last_name := "Lee" },
    { id := "s2", first_name := "Bob", last_name := "Ray" } ]

/-- Two catalog entries. -/
def demoProducts : List Product :=
  [ { sku := "SKU_1", purchase_price := 10, sale_price := 15 },
    { sku := "SKU_2", purchase_price := 4, sale_price := 9 } ]

/-- Three receipts: one of an unknown seller, one with an unknown SKU. -/
def demoRecords : List PurchaseRecord :=
  [ { seller_id := "s2", total_amount := 45, total_discount := 0,
      items := [ { sku := "SKU_1", quantity := 3, discount := 0, sale_price := 15 } ] },
    { seller_id := "s9", total_amount := 9, total_discount := 0,
      items := [ { sku := "SKU_2", quantity := 1, discount := 0, sale_price := 9 } ] },
    { seller_id := "s1", total_amount := 100, total_discount := 1 / 3,
      items := [ { sku := "SKU_2", quantity := 2, discount := 10, sale_price := 9 },
                 { sku := "SKU_7", quantity := 5, discount := 0, sale_price := 1 } ] } ]

/-- The roster of the tier scenario: four sellers `A`, `B`, `C`, `D`. -/
def tierSellers : List Seller :=
  [ { id := "A", first_name := "A", last_name := "a" },
    { id := "B", first_name := "B", last_name := "b" },
    { id := "C", first_name := "C", last_name := "c" },
    { id := "D", first_name := "D", last_name := "d" } ]

/-- The catalog of the tier scenario: one product bought at 50. -/
def tierProducts : List Product :=
  [ { sku := "SKU_1", purchase_price := 50, sale_price := 100 } ]

/-- A receipt of one line: `quantity` units of `SKU_1` sold at `sale_price`. -/
def tierRecord (seller_id : String) (sale_price quantity : ℚ) : PurchaseRecord :=
  { seller_id := seller_id, total_amount := sale_price * quantity, total_discount := 0,
    items := [ { sku := "SKU_1", quantity := quantity, discount := 0,
                 sale_price := sale_price } ] }

/-- The receipts of the tier scenario: profits `A` 300, `B` 200, `C` 200, `D` 50. -/
def tierRecords : List PurchaseRecord :=
  [ tierRecord "D" 100 1, tierRecord "C" 150 2, tierRecord "A" 200 2, tierRecord "B" 250 1 ]

/-- A line item whose SKU is in `demoProducts`. -/
def knownItem : Item := { sku := "SKU_2", quantity := 2, discount := 10, sale_price := 9 }

/-- A roster seller with no receipt among `demoRecords`. -/
def idleSeller : Seller := { id := "s3", first_name := "Cy", last_name := "Dow" }

/-! ## Inputs that name a member of `Object.prototype` -/

/-- A receipt whose `seller_id` is in no roster used here but names a member of
`Object.prototype`; its one line is a unit of `SKU_1`, a catalog product. -/
def inheritedSellerRecord : PurchaseRecord := tierRecord "toString" 10 1

/-- A line item whose SKU is in no catalog used here but names a member of
`Object.prototype`. -/
def inheritedSkuItem : Item :=
  { sku := "constructor", quantity := 5, discount := 0, sale_price := 1 }

/-- A receipt of the seller `s1` with a catalog line and the line `inheritedSkuItem`. -/
def inheritedSkuRecord : PurchaseRecord :=
  { seller_id := "s1", total_amount := 20, total_discount := 5,
    items := [knownItem, inheritedSkuItem] }

/-- The receipt `inheritedSkuRecord` without its line `inheritedSkuItem`. -/
def catalogOnlyRecord : PurchaseRecord :=
  { seller_id := "s1", total_amount := 20, total_discount := 5, items := [knownItem] }

/-- A receipt of the seller `s1` whose one line is `quantity` units of the SKU
`constructor`. -/
def constructorRecord (quantity : ℚ) : PurchaseRecord :=
  { seller_id := "s1", total_amount := quantity, total_discount := 0,
    items := [ { sku := "constructor", quantity := quantity, discount := 0,
                 sale_price := 1 } ] }

/-- A catalog whose one SKU is `__proto__`. -/
def protoProducts : List Product :=
  [ { sku := "__proto__", purchase_price := 1, sale_price := 2 } ]

/-- A roster of one seller. -/
def protoSellers : List Seller :=
  [ { id := "s1", first_name := "Ann", last_name := "Lee" } ]

/-- One receipt of `s1`: two units of the catalog SKU `__proto__`. -/
def protoRecords : List PurchaseRecord :=
  [ { seller_id := "s1", total_amount := 4, total_discount := 0,
      items := [ { sku := "__proto__", quantity := 2, discount := 0, sale_price := 2 } ] } ]

/-! ## Specification-side totals

The quantities the specification states in words, written with list operations only.
They are compared with what `analyzeSalesData` returns in the theorems below. -/

/-- Specification: the purchase records carrying the seller id `id`. -/
def recordsOf (purchase_records : List PurchaseRecord) (id : String) : List PurchaseRecord :=
  purchase_records.filter (fun record => record.seller_id = id)

/-- Specification: the sum of `total_amount - total_discount` over the records of `id`. -/
def specRevenue (purchase_records : List PurchaseRecord) (id : String) : ℚ :=
  ((recordsOf purchase_records id).map
    (fun record => record.total_amount - record.total_discount)).sum

/-- Specification: the number of records of `id`. -/
def specSalesCount (purchase_records : List PurchaseRecord) (id : String) : Nat :=
  (recordsOf purchase_records id).length

/-- Specification: the number of purchase records whose `seller_id` is the id of some
roster seller. -/
def specMatchedRecords (purchase_records : List PurchaseRecord) (sellers : List Seller) :
    Nat :=
  purchase_records.countP (fun record => record.seller_id ∈ sellers.map (·.id))

/-- Specification: the catalog entry a SKU stands for, if the SKU is in the catalog (the
last entry carrying it, should several do). -/
def catalogEntry (products : List Product) (sku : String) : Option Product :=
  (products.filter (fun product => product.sku = sku)).getLast?

/-- Specification: the profit of one line item, `calculateRevenue(item, product) -
product.purchase_price × item.quantity`, counted only when the SKU is in the catalog. -/
def specItemProfit (calculateRevenue : RevenueFn) (products : List Product)
    (item : Item) : ℚ :=
  match catalogEntry products item.sku with
  | none => 0
  | some product => calculateRevenue item product - product.purchase_price * item.quantity

/-- Specification: the sum of the line-item profits over the records of `id`. -/
def specProfit (calculateRevenue : RevenueFn) (products : List Product)
    (purchase_records : List PurchaseRecord) (id : String) : ℚ :=
  ((recordsOf purchase_records id).map
    (fun record => (record.items.map (specItemProfit calculateRevenue products)).sum)).sum

/-- Specification: the line items of the records of `id` whose SKU is in the catalog. -/
def soldItems (products : List Product) (purchase_records : List PurchaseRecord)
    (id : String) : List Item :=
  ((recordsOf purchase_records id).flatMap (·.items)).filter
    (fun item => item.sku ∈ products.map (·.sku))

/-- Specification: the total quantity of `sku` over the catalog line items of `id`. -/
def specQuantity (products : List Product) (purchase_records : List PurchaseRecord)
    (id : String) (sku : String) : ℚ :=
  (((soldItems products purchase_records id).filter (fun item => item.sku = sku)).map
    (·.quantity)).sum

/-- Specification: the distinct catalog SKUs the seller `id` sold. -/
def specSkus (products : List Product) (purchase_records : List PurchaseRecord)
    (id : String) : List String :=
  ((soldItems products purchase_records id).map (·.sku)).dedup

/-! ## Input checks, case by case -/

theorem analyzeSalesData_purchase_rejected (d : Data) (o : Options)
    (h : d.purchase_records.nonEmptyArray = false) :
    analyzeSalesData (some d) o = .error .MissingPurchaseData := by
  obtain ⟨pr, p, s⟩ := d
  cases pr with
  | missing => rfl
  | notArray => rfl
  | array xs =>
    cases xs with
    | nil => rfl
    | cons x xs => simp [Coll.nonEmptyArray] at h

theorem analyzeSalesData_products_rejected (d : Data) (o : Options)
    (h1 : d.purchase_records.nonEmptyArray = true)
    (h : d.products.nonEmptyArray = false) :
    analyzeSalesData (some d) o = .error .MissingProductData := by
  obtain ⟨pr, p, s⟩ := d
  cases pr with
  | missing => simp [Coll.nonEmptyArray] at h1
  | notArray => simp [Coll.nonEmptyArray] at h1
  | array xs =>
    cases xs with
    | nil => simp [Coll.nonEmptyArray] at h1
    | cons x xs =>
      cases p with
      | missing => rfl
      | notArray => rfl
      | array ys =>
        cases ys with
        | nil => rfl
        | cons y ys => simp [Coll.nonEmptyArray] at h

theorem analyzeSalesData_sellers_rejected (d : Data) (o : Options)
    (h1 : d.purchase_records.nonEmptyArray = true)
    (h2 : d.products.nonEmptyArray = true)
    (h : d.sellers.nonEmptyArray = false) :
    analyzeSalesData (some d) o = .error .MissingSellerData := by
  obtain ⟨pr, p, s⟩ := d
  cases pr with
  | missing => simp [Coll.nonEmptyArray] at h1
  | notArray => simp [Coll.nonEmptyArray] at h1
  | array xs =>
    cases xs with
    | nil => simp [Coll.nonEmptyArray] at h1
    | cons x xs =>
      cases p with
      | missing => simp [Coll.nonEmptyArray] at h2
      | notArray => simp [Coll.nonEmptyArray] at h2
      | array ys =>
        cases ys with
        | nil => simp [Coll.nonEmptyArray] at h2
        | cons y ys =>
          cases s with
          | missing => rfl
          | notArray => rfl
          | array zs =>
            cases zs with
            | nil => rfl
            | cons z zs => simp [Coll.nonEmptyArray] at h

theorem nonEmptyArray_eq_false {α : Type} (c : Coll α) :
    c.nonEmptyArray = false ↔ (c = .missing ∨ c = .notArray ∨ c = .array []) := by
  cases c with
  | missing => simp [Coll.nonEmptyArray]
  | notArray => simp [Coll.nonEmptyArray]
  | array xs => cases xs <;> simp [Coll.nonEmptyArray]

/-- Past the three collection checks, the outcome is decided by `options` alone. -/
theorem analyzeSalesData_options (rs : List PurchaseRecord) (ps : List Product)
    (ss : List Seller) (hr : rs ≠ []) (hp : ps ≠ []) (hs : ss ≠ []) (o : Options) :
    analyzeSalesData (Data.ofArrays rs ps ss) o =
      match o with
      | .falsy => .error .InvalidConfiguration
      | .notObject => .error .InvalidConfiguration
      | .object sr sb =>
        if sr.truthy = false ∨ sb.truthy = false then .error .MissingStrategy
        else match sr, sb with
          | .fn cr, .fn cb => report rs ps ss cr cb
          | _, _ => .error .StrategyNotCallable := by
  cases rs with
  | nil => exact absurd rfl hr
  | cons r rs =>
    cases ps with
    | nil => exact absurd rfl hp
    | cons p ps =>
      cases ss with
      | nil => exact absurd rfl hs
      | cons s ss =>
        cases o with
        | falsy => rfl
        | notObject => rfl
        | object sr sb => cases sr <;> cases sb <;> rfl

theorem passesValidation_ofArrays (rs : List PurchaseRecord) (ps : List Product)
    (ss : List Seller) (cr : RevenueFn) (cb : BonusFn)
    (hr : rs ≠ []) (hp : ps ≠ []) (hs : ss ≠ []) :
    passesValidation (Data.ofArrays rs ps ss) (Options.ofFunctions cr cb) := by
  cases rs with
  | nil => exact absurd rfl hr
  | cons r rs =>
    cases ps with
    | nil => exact absurd rfl hp
    | cons p ps =>
      cases ss with
      | nil => exact absurd rfl hs
      | cons s ss => exact ⟨⟨_, rfl, rfl, rfl, rfl⟩, rfl, ⟨rfl, rfl⟩, rfl, rfl⟩

theorem nonEmptyArray_eq_true {α : Type} (c : Coll α) (h : c.nonEmptyArray = true) :
    ∃ xs, xs ≠ [] ∧ c = .array xs := by
  cases c with
  | missing => simp [Coll.nonEmptyArray] at h
  | notArray => simp [Coll.nonEmptyArray] at h
  | array xs =>
    cases xs with
    | nil => simp [Coll.nonEmptyArray] at h
    | cons x xs => exact ⟨x :: xs, by simp, rfl⟩

/-! ## Where the two skips hold

The skips announced at lines 115 and 129 take place for a key that is neither an own
property nor the name of an inherited member, and the `TypeError` of line 145 needs a
receipt whose `seller_id` names an inherited member. -/

theorem Obj.read_eq_undefined {β : Type} (o : Obj β) (k : String) :
    Obj.read o k = .undefined ↔ Obj.getOwn o k = none ∧ k ∉ objectPrototypeNames := by
  unfold Obj.read
  cases h : Obj.getOwn o k with
  | some v => simp
  | none =>
    by_cases hk : k ∈ objectPrototypeNames
    · simp [hk]
    · simp [hk]

theorem Obj.read_ne_inherited {β : Type} (o : Obj β) (k : String)
    (hk : k ∉ objectPrototypeNames) (name : String) : Obj.read o k ≠ .inherited name := by
  unfold Obj.read
  cases h : Obj.getOwn o k with
  | some v => simp
  | none => simp [hk]

/-- Line 115: a receipt whose `seller_id` is neither a key of `sellerIndex` nor the name of
an inherited member changes nothing. -/
theorem processRecord_skips (cr : RevenueFn) (idx : Obj Product) (refs : Obj Nat)
    (st : List SellerStats) (r : PurchaseRecord)
    (h : Obj.getOwn refs r.seller_id = none) (hk : r.seller_id ∉ objectPrototypeNames) :
    processRecord cr idx refs st r = .ok st := by
  have h' := (Obj.read_eq_undefined refs r.seller_id).mpr ⟨h, hk⟩
  simp [processRecord, h']

/-- Line 129: an item whose SKU is neither a key of `productIndex` nor the name of an
inherited member changes nothing. -/
theorem processItem_skips (cr : RevenueFn) (idx : Obj Product) (s : SellerStats) (it : Item)
    (h : Obj.getOwn idx it.sku = none) (hk : it.sku ∉ objectPrototypeNames) :
    processItem cr idx s it = s := by
  have h' := (Obj.read_eq_undefined idx it.sku).mpr ⟨h, hk⟩
  simp [processItem, h']

/-- A receipt whose `seller_id` names no inherited member does not throw. -/
theorem processRecord_returns (cr : RevenueFn) (idx : Obj Product) (refs : Obj Nat)
    (st : List SellerStats) (r : PurchaseRecord) (hk : r.seller_id ∉ objectPrototypeNames) :
    ∃ st', processRecord cr idx refs st r = .ok st' := by
  unfold processRecord
  cases h : Obj.read refs r.seller_id with
  | undefined => exact ⟨_, rfl⟩
  | own ref => exact ⟨_, rfl⟩
  | inherited name => exact absurd h (Obj.read_ne_inherited refs r.seller_id hk name)

theorem foldlM_processRecord_returns (cr : RevenueFn) (idx : Obj Product) (refs : Obj Nat)
    (rs : List PurchaseRecord) (hk : ∀ r ∈ rs, r.seller_id ∉ objectPrototypeNames)
    (st : List SellerStats) :
    ∃ st', rs.foldlM (processRecord cr idx refs) st = .ok st' := by
  induction rs generalizing st with
  | nil => exact ⟨st, rfl⟩
  | cons r rs ih =>
    obtain ⟨st₁, h₁⟩ := processRecord_returns cr idx refs st r (hk r (List.mem_cons_self _ _))
    obtain ⟨st₂, h₂⟩ := ih (fun r' hr' => hk r' (List.mem_cons_of_mem _ hr')) st₁
    refine ⟨st₂, ?_⟩
    rw [List.foldlM_cons, h₁]
    exact h₂

/-- On three non-empty arrays and two functions the call returns, as long as no receipt has
the name of an inherited member for `seller_id`. -/
theorem analyzeSalesData_returns (rs : List PurchaseRecord) (ps : List Product)
    (ss : List Seller) (cr : RevenueFn) (cb : BonusFn)
    (hr : rs ≠ []) (hp : ps ≠ []) (hs : ss ≠ [])
    (hk : ∀ r ∈ rs, r.seller_id ∉ objectPrototypeNames) :
    ∃ out, analyzeSalesData (Data.ofArrays rs ps ss) (Options.ofFunctions cr cb) = .ok out := by
  obtain ⟨st, hst⟩ := foldlM_processRecord_returns cr (productIndex ps)
    (sellerIndex (initStats ss)) rs hk (initStats ss)
  refine ⟨(rank st ss cb).map formatResult, ?_⟩
  rw [Options.ofFunctions, analyzeSalesData_options rs ps ss hr hp hs]
  simp only [Slot.truthy, Bool.true_eq_false, or_self, if_false]
  unfold report aggregate
  simp only [hst]

theorem processRecord_error (cr : RevenueFn) (idx : Obj Product) (refs : Obj Nat)
    (st : List SellerStats) (r : PurchaseRecord) (e : AnalysisError)
    (h : processRecord cr idx refs st r = .error e) : e = .TypeError := by
  unfold processRecord at h
  cases hl : Obj.read refs r.seller_id with
  | undefined => simp [hl] at h
  | own ref => simp [hl] at h
  | inherited name =>
    simp only [hl] at h
    split_ifs at h
    cases h
    rfl

theorem foldlM_processRecord_error (cr : RevenueFn) (idx : Obj Product) (refs : Obj Nat)
    (rs : List PurchaseRecord) (st : List SellerStats) (e : AnalysisError)
    (h : rs.foldlM (processRecord cr idx refs) st = .error e) : e = .TypeError := by
  induction rs generalizing st with
  | nil => cases h
  | cons r rs ih =>
    rw [List.foldlM_cons] at h
    cases h₁ : processRecord cr idx refs st r with
    | ok st₁ =>
      rw [h₁] at h
      exact ih st₁ h
    | error e₁ =>
      rw [h₁] at h
      have he : e₁ = e := by
        cases h
        rfl
      exact he ▸ processRecord_error cr idx refs st r e₁ h₁

/-- An exception other than the `TypeError` of line 145 is thrown by an input check. -/
theorem analyzeSalesData_error_cases (data : Option Data) (options : Options)
    (e : AnalysisError) (h : analyzeSalesData data options = .error e)
    (hv : passesValidation data options) : e = .TypeError := by
  obtain ⟨⟨d, rfl, h1, h2, h3⟩, hobj, _, hc1, hc2⟩ := hv
  obtain ⟨pr, p, s⟩ := d
  obtain ⟨rs, hr, rfl⟩ := nonEmptyArray_eq_true _ h1
  obtain ⟨ps, hp, rfl⟩ := nonEmptyArray_eq_true _ h2
  obtain ⟨ss, hs, rfl⟩ := nonEmptyArray_eq_true _ h3
  have h' : analyzeSalesData (Data.ofArrays rs ps ss) options = .error e := h
  rw [analyzeSalesData_options rs ps ss hr hp hs] at h'
  cases options with
  | falsy => simp [Options.isObject] at hobj
  | notObject => simp [Options.isObject] at hobj
  | object sr sb =>
    cases sr with
    | missing => simp [Options.calculateRevenue, Slot.callable] at hc1
    | falsy => simp [Options.calculateRevenue, Slot.callable] at hc1
    | notFunction => simp [Options.calculateRevenue, Slot.callable] at hc1
    | fn cr =>
      cases sb with
      | missing => simp [Options.calculateBonus, Slot.callable] at hc2
      | falsy => simp [Options.calculateBonus, Slot.callable] at hc2
      | notFunction => simp [Options.calculateBonus, Slot.callable] at hc2
      | fn cb =>
        simp only [Slot.truthy, Bool.true_eq_false, or_self, if_false] at h'
        unfold report at h'
        cases hagg : aggregate rs ps ss cr with
        | ok st => simp [hagg] at h'
        | error e' =>
          simp only [hagg] at h'
          have he : e' = e := by
            cases h'
            rfl
          subst he
          unfold aggregate at hagg
          exact foldlM_processRecord_error cr (productIndex ps) (sellerIndex (initStats ss)) rs
            (initStats ss) e' hagg

/-! ## The worked inputs, evaluated -/

/-- The report on the worked input: `s2` leads with a profit of 15; the receipt of `s9` and
the line with `SKU_7` leave no trace. -/
theorem analyzeSalesData_demo :
    analyzeSalesData (Data.ofArrays demoRecords demoProducts demoSellers) defaultOptions
      = .ok
        [ { seller_id := "s2", name := "Bob Ray", revenue := 45, profit := .finite 15,
            sales_count := 1, top_products := [{ sku := "SKU_1", quantity := .number 3 }],
            bonus := .finite (225 / 100) },
          { seller_id := "s1", name := "Ann Lee", revenue := 9967 / 100,
            profit := .finite (82 / 10), sales_count := 1,
            top_products := [{ sku := "SKU_2", quantity := .number 2 }],
            bonus := .finite (82 / 100) } ] := by
  decide!

/-- The report on the tier scenario: bonuses 45, 20, 20 and 0. -/
theorem analyzeSalesData_tier :
    (analyzeSalesData (Data.ofArrays tierRecords tierProducts tierSellers) defaultOptions).map
        (fun out => out.map (fun o => (o.seller_id, o.profit, o.bonus)))
      = .ok [ ("A", .finite 300, .finite 45), ("B", .finite 200, .finite 20),
              ("C", .finite 200, .finite 20), ("D", .finite 50, .finite 0) ] := by
  decide!

/-- The worked input with a second receipt of `s1` that holds a catalog line only: `s1`
leads with a profit of 16.4. -/
theorem analyzeSalesData_catalogOnly :
    analyzeSalesData (Data.ofArrays (demoRecords ++ [catalogOnlyRecord]) demoProducts
        demoSellers) defaultOptions
      = .ok
        [ { seller_id := "s1", name := "Ann Lee", revenue := 11467 / 100,
            profit := .finite (82 / 5), sales_count := 2,
            top_products := [{ sku := "SKU_2", quantity := .number 4 }],
            bonus := .finite (246 / 100) },
          { seller_id := "s2", name := "Bob Ray", revenue := 45, profit := .finite 15,
            sales_count := 1, top_products := [{ sku := "SKU_1", quantity := .number 3 }],
            bonus := .finite (15 / 10) } ] := by
  decide!

/-- The worked input with a second receipt of `s1` that holds a catalog line and a line
with the SKU `constructor`: the profit and the bonus of `s1` are `NaN`, and its
`top_products` holds a string. -/
theorem analyzeSalesData_inheritedSku :
    analyzeSalesData (Data.ofArrays (demoRecords ++ [inheritedSkuRecord]) demoProducts
        demoSellers) defaultOptions
      = .ok
        [ { seller_id := "s1", name := "Ann Lee", revenue := 11467 / 100, profit := .nan,
            sales_count := 2,
            top_products := [ { sku := "SKU_2", quantity := .number 4 },
                              { sku := "constructor", quantity := .text "constructor" [5] } ],
            bonus := .nan },
          { seller_id := "s2", name := "Bob Ray", revenue := 45, profit := .finite 15,
            sales_count := 1, top_products := [{ sku := "SKU_1", quantity := .number 3 }],
            bonus := .finite (15 / 10) } ] := by
  decide!

/-- A result that is an exception is no returned value. -/
theorem ne_ok_of_eq_error {ε α : Type} {x : Except ε α} {e : ε} (h : x = .error e) (a : α) :
    x ≠ .ok a := by
  rw [h]
  intro h'
  cases h'

/-! ## Claims

Claims C11, C12, C13, C15 and C18 are about the input checks and the two default
strategies.  The other claims are about the aggregation and the ranking, which read
`sellerIndex`, `productIndex` and `products_sold` with `o[k]` at lines 112, 126 and 145;
that read also finds the members inherited from `Object.prototype`.  The comments of lines
115 and 129 say that a receipt of a seller who is not in the list and an item that is not
in the catalog are skipped, and the comment of line 97 says that `products_sold` maps a SKU
to a quantity.  For each of these claims a theorem evaluates `analyzeSalesData` at an input
where a key names an inherited member and the code does otherwise. -/

/-- C1, at a failing input.  The claim: on every valid input the call returns one record per
roster seller, the returned ids being a permutation of the roster ids.  On the worked input
with one more receipt, of the unknown seller `toString`, the call returns nothing: it throws
a `TypeError`. -/
theorem analyzeSalesData_inherited_seller_no_output :
    analyzeSalesData
        (Data.ofArrays (demoRecords ++ [inheritedSellerRecord]) demoProducts demoSellers)
        defaultOptions = .error .TypeError ∧
    ¬ ∃ out, analyzeSalesData
        (Data.ofArrays (demoRecords ++ [inheritedSellerRecord]) demoProducts demoSellers)
        defaultOptions = .ok out ∧
      (out.map (·.seller_id)).Perm (demoSellers.map (·.id)) := by
  have h : analyzeSalesData
      (Data.ofArrays (demoRecords ++ [inheritedSellerRecord]) demoProducts demoSellers)
      defaultOptions = .error .TypeError := by decide!
  exact ⟨h, fun ⟨out, hout, _⟩ => ne_ok_of_eq_error h out hout⟩

/-- C2, at a failing input.  The claim: the output is sorted by profit descending, each
record's reported profit being `>=` that of the next.  On the worked input with one more
receipt of `s1`, holding a line with the unknown SKU `constructor`, the output is `s1` with
profit `NaN` followed by `s2` with profit 15, and `NaN >= 15` is false. -/
theorem analyzeSalesData_nan_profit_ranked_first :
    ∃ a b, analyzeSalesData
        (Data.ofArrays (demoRecords ++ [inheritedSkuRecord]) demoProducts demoSellers)
        defaultOptions = .ok [a, b] ∧
      a.seller_id = "s1" ∧ a.profit = .nan ∧ b.seller_id = "s2" ∧ b.profit = .finite 15 ∧
      ¬ Num.ge a.profit b.profit :=
  ⟨_, _, analyzeSalesData_inheritedSku, rfl, rfl, rfl, rfl, by decide⟩

/-- C3, at a failing input.  The claim: on every valid input, of two roster sellers with
equal accumulated profit the one earlier in the roster comes earlier in the output.  In the
tier scenario `B` and `C` both earn 200; with a receipt of the unknown seller `toString` in
front of the others, the call returns no output at all: it throws a `TypeError`. -/
theorem analyzeSalesData_tie_scenario_throws :
    specProfit calculateSimpleRevenue tierProducts (inheritedSellerRecord :: tierRecords) "B"
      = 200 ∧
    specProfit calculateSimpleRevenue tierProducts (inheritedSellerRecord :: tierRecords) "C"
      = 200 ∧
    analyzeSalesData
        (Data.ofArrays (inheritedSellerRecord :: tierRecords) tierProducts tierSellers)
        defaultOptions = .error .TypeError := by
  decide!

/-- C4, at a failing input.  The claim: on every valid input the `sales_count` of the
output records add up to the number of receipts whose `seller_id` is a roster id.  On the
worked input with a receipt of the unknown seller `toString` in front, two receipts carry a
roster id, and the call returns no record to add up: it throws a `TypeError`. -/
theorem analyzeSalesData_sales_count_throws :
    specMatchedRecords (inheritedSellerRecord :: demoRecords) demoSellers = 2 ∧
    analyzeSalesData
        (Data.ofArrays (inheritedSellerRecord :: demoRecords) demoProducts demoSellers)
        defaultOptions = .error .TypeError := by
  decide!

/-- C5, at a failing input.  The claim: on every valid input with unique roster ids each
record reports the revenue and the number of the receipts of its seller, whatever
`calculateRevenue` is.  On the worked input with one more receipt, of the unknown seller
`toString`, the call throws a `TypeError`, with the default `calculateRevenue` and with the
one that always returns 0. -/
theorem analyzeSalesData_revenue_throws :
    (demoSellers.map (·.id)).Nodup ∧
    specRevenue (demoRecords ++ [inheritedSellerRecord]) "s1" = 299 / 3 ∧
    specSalesCount (demoRecords ++ [inheritedSellerRecord]) "s1" = 1 ∧
    analyzeSalesData
        (Data.ofArrays (demoRecords ++ [inheritedSellerRecord]) demoProducts demoSellers)
        (Options.ofFunctions calculateSimpleRevenue calculateBonusByProfit)
      = .error .TypeError ∧
    analyzeSalesData
        (Data.ofArrays (demoRecords ++ [inheritedSellerRecord]) demoProducts demoSellers)
        (Options.ofFunctions (fun _ _ => 0) calculateBonusByProfit)
      = .error .TypeError := by
  decide!

/-- C6, at a failing input.  The claim: with unique roster ids each record's profit is the
rounded sum, over the seller's receipts and their lines whose SKU is in the catalog, of
`calculateRevenue(item, product) - product.purchase_price × item.quantity`.  On the worked
input with one more receipt of `s1`, holding a catalog line and a line with the unknown SKU
`constructor`, that sum is 16.4 for `s1`, and the reported profit is `NaN`. -/
theorem analyzeSalesData_profit_nan :
    (demoSellers.map (·.id)).Nodup ∧
    inheritedSkuItem.sku ∉ demoProducts.map (·.sku) ∧
    specProfit calculateSimpleRevenue demoProducts (demoRecords ++ [inheritedSkuRecord]) "s1"
      = 82 / 5 ∧
    ∃ a b, analyzeSalesData
        (Data.ofArrays (demoRecords ++ [inheritedSkuRecord]) demoProducts demoSellers)
        defaultOptions = .ok [a, b] ∧
      a.seller_id = "s1" ∧ a.profit = .nan ∧
      a.profit ≠ .finite (toFixed2 (specProfit calculateSimpleRevenue demoProducts
        (demoRecords ++ [inheritedSkuRecord]) "s1")) :=
  ⟨by decide, by decide, by decide!,
    _, _, analyzeSalesData_inheritedSku, rfl, rfl, fun h => Num.noConfusion h⟩

/-- C7, at a failing input.  The claim: a receipt whose `seller_id` matches no roster seller
is skipped, so that adding it leaves the whole output unchanged.  The worked input returns
its report; with one more receipt, of the seller `toString`, who is not in the roster, the
call throws a `TypeError`. -/
theorem analyzeSalesData_unknown_seller_not_skipped :
    inheritedSellerRecord.seller_id ∉ demoSellers.map (·.id) ∧
    (∃ out, analyzeSalesData (Data.ofArrays demoRecords demoProducts demoSellers)
      defaultOptions = .ok out) ∧
    analyzeSalesData
        (Data.ofArrays (demoRecords ++ [inheritedSellerRecord]) demoProducts demoSellers)
        defaultOptions = .error .TypeError ∧
    analyzeSalesData
        (Data.ofArrays (demoRecords ++ [inheritedSellerRecord]) demoProducts demoSellers)
        defaultOptions ≠
      analyzeSalesData (Data.ofArrays demoRecords demoProducts demoSellers) defaultOptions :=
  ⟨by decide, ⟨_, analyzeSalesData_demo⟩, by decide!, by decide!⟩

/-- C8, at a failing input.  The claim: a line item whose SKU is not in the catalog
contributes nothing to profit or `top_products`, so that removing it leaves the whole
output unchanged.  On the worked input with one more receipt of `s1`, removing the line
with the unknown SKU `constructor` from that receipt turns the profit of `s1` from `NaN`
into 16.4 and takes the entry `constructor` out of its `top_products`. -/
theorem analyzeSalesData_unknown_sku_not_skipped :
    inheritedSkuItem.sku ∉ demoProducts.map (·.sku) ∧
    inheritedSkuRecord.items = catalogOnlyRecord.items ++ [inheritedSkuItem] ∧
    ∃ a b c, analyzeSalesData
        (Data.ofArrays (demoRecords ++ [inheritedSkuRecord]) demoProducts demoSellers)
        defaultOptions = .ok [a, b] ∧
      analyzeSalesData
        (Data.ofArrays (demoRecords ++ [catalogOnlyRecord]) demoProducts demoSellers)
        defaultOptions = .ok [c, b] ∧
      a.seller_id = "s1" ∧ c.seller_id = "s1" ∧
      a.profit = .nan ∧ c.profit = .finite (82 / 5) ∧
      a.bonus = .nan ∧ c.bonus = .finite (246 / 100) ∧
      a.top_products = [ { sku := "SKU_2", quantity := .number 4 },
                         { sku := "constructor", quantity := .text "constructor" [5] } ] ∧
      c.top_products = [ { sku := "SKU_2", quantity := .number 4 } ] :=
  ⟨by decide, rfl, _, _, _, analyzeSalesData_inheritedSku, analyzeSalesData_catalogOnly,
    rfl, rfl, rfl, rfl, rfl, rfl, rfl, rfl⟩

/-- C9, at a failing input.  The claim: every `top_products` has at most ten entries and is
sorted by quantity descending, each quantity being `>=` the next.  On the worked input with
one more receipt of `s1`, holding a line with the unknown SKU `constructor`, the
`top_products` of `s1` is the quantity 4 followed by a string, which converts to `NaN`:
`4 >= NaN` is false. -/
theorem analyzeSalesData_top_products_string_quantity :
    ∃ a b p q, analyzeSalesData
        (Data.ofArrays (demoRecords ++ [inheritedSkuRecord]) demoProducts demoSellers)
        defaultOptions = .ok [a, b] ∧
      a.top_products = [p, q] ∧
      p = { sku := "SKU_2", quantity := .number 4 } ∧
      q = { sku := "constructor", quantity := .text "constructor" [5] } ∧
      ¬ Num.ge p.quantity.toNumber q.quantity.toNumber :=
  ⟨_, _, _, _, analyzeSalesData_inheritedSku, rfl, rfl, rfl, by decide⟩

/-- C10, at a failing input.  The claim: the revenue, profit and bonus of every output
record are multiples of 0.01 within 0.005 of the accumulated values.  On the worked input
with one more receipt of `s1`, holding a line with the unknown SKU `constructor`, the profit
and the bonus of `s1` are `NaN`, which is no multiple of 0.01. -/
theorem analyzeSalesData_nan_not_rounded :
    ∃ a b, analyzeSalesData
        (Data.ofArrays (demoRecords ++ [inheritedSkuRecord]) demoProducts demoSellers)
        defaultOptions = .ok [a, b] ∧
      a.profit = .nan ∧ a.bonus = .nan ∧
      (∀ n : ℤ, a.profit ≠ .finite ((n : ℚ) / 100)) ∧
      (∀ n : ℤ, a.bonus ≠ .finite ((n : ℚ) / 100)) :=
  ⟨_, _, analyzeSalesData_inheritedSku, rfl, rfl, fun _ h => Num.noConfusion h,
    fun _ h => Num.noConfusion h⟩

/-- C11. The three collections are checked in order, before `options` is looked at.  If
`data` is falsy, or `data.purchase_records` is absent, not an array or empty, the call
fails with `MissingPurchaseData` whatever the other arguments are; otherwise, if
`data.products` is absent, not an array or empty, it fails with `MissingProductData`;
otherwise, if `data.sellers` is absent, not an array or empty, it fails with
`MissingSellerData`. -/
theorem analyzeSalesData_collection_errors (d : Data) (o : Options) :
    analyzeSalesData none o = .error .MissingPurchaseData ∧
    ((d.purchase_records = .missing ∨ d.purchase_records = .notArray ∨
        d.purchase_records = .array []) →
      analyzeSalesData (some d) o = .error .MissingPurchaseData) ∧
    (d.purchase_records.nonEmptyArray = true →
      (d.products = .missing ∨ d.products = .notArray ∨ d.products = .array []) →
      analyzeSalesData (some d) o = .error .MissingProductData) ∧
    (d.purchase_records.nonEmptyArray = true → d.products.nonEmptyArray = true →
      (d.sellers = .missing ∨ d.sellers = .notArray ∨ d.sellers = .array []) →
      analyzeSalesData (some d) o = .error .MissingSellerData) := by
  refine ⟨rfl, ?_, ?_, ?_⟩
  · intro h
    exact analyzeSalesData_purchase_rejected d o ((nonEmptyArray_eq_false _).mpr h)
  · intro h1 h
    exact analyzeSalesData_products_rejected d o h1 ((nonEmptyArray_eq_false _).mpr h)
  · intro h1 h2 h
    exact analyzeSalesData_sellers_rejected d o h1 h2 ((nonEmptyArray_eq_false _).mpr h)

/-- C11 on three inputs: no receipts (and nothing else usable), no products (with no
sellers and no options), no sellers (with a non-object for options). -/
theorem analyzeSalesData_collection_errors_witness :
    analyzeSalesData
        (some { purchase_records := .array [], products := .missing, sellers := .notArray })
        .falsy = .error .MissingPurchaseData ∧
    analyzeSalesData
        (some { purchase_records := .array demoRecords, products := .array [],
                sellers := .missing })
        .falsy = .error .MissingProductData ∧
    analyzeSalesData
        (some { purchase_records := .array demoRecords, products := .array demoProducts,
                sellers := .notArray })
        .notObject = .error .MissingSellerData :=
  ⟨(analyzeSalesData_collection_errors
      { purchase_records := .array [], products := .missing, sellers := .notArray }
      .falsy).2.1 (Or.inr (Or.inr rfl)),
    (analyzeSalesData_collection_errors
      { purchase_records := .array demoRecords, products := .array [], sellers := .missing }
      .falsy).2.2.1 rfl (Or.inr (Or.inr rfl)),
    (analyzeSalesData_collection_errors
      { purchase_records := .array demoRecords, products := .array demoProducts,
        sellers := .notArray }
      .notObject).2.2.2 rfl rfl (Or.inr (Or.inl rfl))⟩

/-- C12. With three valid collections and an object for `options`, the call fails with
`MissingStrategy` as soon as `calculateRevenue` or `calculateBonus` is absent from it,
whatever the other property holds. -/
theorem analyzeSalesData_missing_strategy (rs : List PurchaseRecord) (ps : List Product)
    (ss : List Seller) (hr : rs ≠ []) (hp : ps ≠ []) (hs : ss ≠ [])
    (sr : Slot RevenueFn) (sb : Slot BonusFn)
    (h : sr.supplied = false ∨ sb.supplied = false) :
    analyzeSalesData (Data.ofArrays rs ps ss) (.object sr sb) = .error .MissingStrategy := by
  rw [analyzeSalesData_options rs ps ss hr hp hs]
  cases sr <;> cases sb <;> simp [Slot.supplied, Slot.truthy] at h ⊢

/-- C12 on the worked input, with a non-function for `calculateRevenue` and no
`calculateBonus`. -/
theorem analyzeSalesData_missing_strategy_witness :
    analyzeSalesData (Data.ofArrays demoRecords demoProducts demoSellers)
      (.object .notFunction .missing) = .error .MissingStrategy :=
  analyzeSalesData_missing_strategy demoRecords demoProducts demoSellers (by decide)
    (by decide) (by decide) .notFunction .missing (Or.inr rfl)

/-- C13, amended.  With three valid collections and truthy values for both
`calculateRevenue` and `calculateBonus`, the call fails with `StrategyNotCallable` if either
value is not a function; a falsy value for either (supplied or not) makes it fail with
`MissingStrategy` instead. -/
theorem analyzeSalesData_strategy_not_callable (rs : List PurchaseRecord) (ps : List Product)
    (ss : List Seller) (hr : rs ≠ []) (hp : ps ≠ []) (hs : ss ≠ [])
    (sr : Slot RevenueFn) (sb : Slot BonusFn) :
    (sr.truthy = true → sb.truthy = true → (sr.callable = false ∨ sb.callable = false) →
      analyzeSalesData (Data.ofArrays rs ps ss) (.object sr sb)
        = .error .StrategyNotCallable) ∧
    ((sr.truthy = false ∨ sb.truthy = false) →
      analyzeSalesData (Data.ofArrays rs ps ss) (.object sr sb) = .error .MissingStrategy) := by
  rw [analyzeSalesData_options rs ps ss hr hp hs]
  constructor
  · intro h1 h2 h
    cases sr <;> cases sb <;> simp [Slot.truthy, Slot.callable] at h1 h2 h ⊢
  · intro h
    cases sr <;> cases sb <;> simp [Slot.truthy] at h ⊢

/-- C13, amended, on the worked input: a truthy non-function for `calculateRevenue` next to
a function, and the number `0` for `calculateRevenue` next to a function. -/
theorem analyzeSalesData_strategy_not_callable_witness :
    analyzeSalesData (Data.ofArrays demoRecords demoProducts demoSellers)
      (.object .notFunction (.fn calculateBonusByProfit)) = .error .StrategyNotCallable ∧
    analyzeSalesData (Data.ofArrays demoRecords demoProducts demoSellers)
      (.object .falsy (.fn calculateBonusByProfit)) = .error .MissingStrategy :=
  ⟨(analyzeSalesData_strategy_not_callable demoRecords demoProducts demoSellers (by decide)
      (by decide) (by decide) .notFunction (.fn calculateBonusByProfit)).1 rfl rfl
      (Or.inl rfl),
    (analyzeSalesData_strategy_not_callable demoRecords demoProducts demoSellers (by decide)
      (by decide) (by decide) .falsy (.fn calculateBonusByProfit)).2 (Or.inl rfl)⟩

/-- C13 as stated fails: with valid collections, `calculateRevenue: 0` (a supplied value
that is not callable) and a function for `calculateBonus`, the call fails with
`MissingStrategy`, not with `StrategyNotCallable`. -/
theorem analyzeSalesData_strategy_not_callable_counterexample :
    demoRecords ≠ [] ∧ demoProducts ≠ [] ∧ demoSellers ≠ [] ∧
    (Slot.falsy : Slot RevenueFn).supplied = true ∧
    (Slot.fn calculateBonusByProfit : Slot BonusFn).supplied = true ∧
    (Slot.falsy : Slot RevenueFn).callable = false ∧
    analyzeSalesData (Data.ofArrays demoRecords demoProducts demoSellers)
      (.object .falsy (.fn calculateBonusByProfit)) = .error .MissingStrategy ∧
    analyzeSalesData (Data.ofArrays demoRecords demoProducts demoSellers)
      (.object .falsy (.fn calculateBonusByProfit)) ≠ .error .StrategyNotCallable := by
  refine ⟨by decide, by decide, by decide, rfl, rfl, rfl, rfl, ?_⟩
  intro h
  have h' : (Except.error AnalysisError.MissingStrategy :
      Except AnalysisError (List RankedResult)) = .error .StrategyNotCallable := h
  cases h'

/-- C14, at a failing input.  The claim: a referential gap is never an error, and the call
fails only when one of the six validation conditions is violated.  The input made of the
worked catalog and roster and of one receipt, of the unknown seller `toString`, passes the
six conditions, and the call throws a `TypeError`. -/
theorem analyzeSalesData_referential_gap_throws :
    inheritedSellerRecord.seller_id ∉ demoSellers.map (·.id) ∧
    passesValidation (Data.ofArrays [inheritedSellerRecord] demoProducts demoSellers)
      defaultOptions ∧
    analyzeSalesData (Data.ofArrays [inheritedSellerRecord] demoProducts demoSellers)
      defaultOptions = .error .TypeError :=
  ⟨by decide,
    passesValidation_ofArrays [inheritedSellerRecord] demoProducts demoSellers
      calculateSimpleRevenue calculateBonusByProfit (by decide) (by decide) (by decide),
    by decide!⟩

/-- C15. The default bonus strategy applies the first matching rule: 0.15 at index 0;
0.10 at index 1 or 2; from index 3 on, 0 at the last index `total - 1` and 0.05 elsewhere.
So the result is one of 0, 0.05, 0.10, 0.15, lies in `[0, 1]`, does not depend on the
seller argument, and with `total ≤ 3` the last-ranked seller gets 0.15 or 0.10, not 0. -/
theorem calculateBonusByProfit_tiers (index total : Nat) (seller seller' : SellerView) :
    (index = 0 → calculateBonusByProfit index total seller = 15 / 100) ∧
    (index = 1 ∨ index = 2 → calculateBonusByProfit index total seller = 10 / 100) ∧
    (3 ≤ index → index + 1 = total → calculateBonusByProfit index total seller = 0) ∧
    (3 ≤ index → index + 1 ≠ total → calculateBonusByProfit index total seller = 5 / 100) ∧
    (calculateBonusByProfit index total seller = 0 ∨
      calculateBonusByProfit index total seller = 5 / 100 ∨
      calculateBonusByProfit index total seller = 10 / 100 ∨
      calculateBonusByProfit index total seller = 15 / 100) ∧
    (0 ≤ calculateBonusByProfit index total seller ∧
      calculateBonusByProfit index total seller ≤ 1) ∧
    calculateBonusByProfit index total seller = calculateBonusByProfit index total seller' ∧
    (total ≤ 3 → index + 1 = total →
      calculateBonusByProfit index total seller = 15 / 100 ∨
      calculateBonusByProfit index total seller = 10 / 100) := by
  have key : ∀ s : SellerView, calculateBonusByProfit index total s =
      if index = 0 then 15 / 100
      else if index = 1 ∨ index = 2 then 10 / 100
      else if index + 1 = total then 0
      else 5 / 100 := by
    intro s
    have hlast : ((index : ℤ) = (total : ℤ) - 1) ↔ index + 1 = total := by omega
    unfold calculateBonusByProfit
    simp only [hlast]
  refine ⟨?_, ?_, ?_, ?_, ?_, ?_, ?_, ?_⟩
  · intro h; rw [key]; simp [h]
  · intro h
    have h0 : index ≠ 0 := by omega
    rw [key]; simp [h0, h]
  · intro h3 hl
    have h0 : index ≠ 0 := by omega
    have h12 : ¬ (index = 1 ∨ index = 2) := by omega
    rw [key]; simp [h0, h12, hl]
  · intro h3 hl
    have h0 : index ≠ 0 := by omega
    have h12 : ¬ (index = 1 ∨ index = 2) := by omega
    rw [key]; simp [h0, h12, hl]
  · rw [key]; split_ifs <;> simp
  · rw [key]; split_ifs <;> norm_num
  · rw [key, key]
  · intro h3 hl
    rw [key]
    by_cases h0 : index = 0
    · left; simp [h0]
    · right
      have h12 : index = 1 ∨ index = 2 := by omega
      simp [h0, h12]

/-- C15 at four points: the only seller of one, the last of three, the last of four, the
fourth of five. -/
theorem calculateBonusByProfit_tiers_witness :
    calculateBonusByProfit 0 1 { roster := none, profit := 0 } = 15 / 100 ∧
    (calculateBonusByProfit 2 3 { roster := none, profit := 0 } = 15 / 100 ∨
      calculateBonusByProfit 2 3 { roster := none, profit := 0 } = 10 / 100) ∧
    calculateBonusByProfit 3 4 { roster := none, profit := 0 } = 0 ∧
    calculateBonusByProfit 3 5 { roster := none, profit := 0 } = 5 / 100 :=
  ⟨(calculateBonusByProfit_tiers 0 1 { roster := none, profit := 0 }
      { roster := none, profit := 0 }).1 rfl,
    (calculateBonusByProfit_tiers 2 3 { roster := none, profit := 0 }
      { roster := none, profit := 0 }).2.2.2.2.2.2.2 (by decide) (by decide),
    (calculateBonusByProfit_tiers 3 4 { roster := none, profit := 0 }
      { roster := none, profit := 0 }).2.2.1 (by decide) (by decide),
    (calculateBonusByProfit_tiers 3 5 { roster := none, profit := 0 }
      { roster := none, profit := 0 }).2.2.2.1 (by decide) (by decide)⟩

/-- C16, at a failing input.  The claim: on every valid input the record at position `i`
has the bonus `profit × calculateBonus(i, total, seller)`, rounded; in the tier scenario the
bonuses are 45, 20, 20 and 0.  The scenario itself gives these bonuses; with one more
receipt, of the unknown seller `toString`, no bonus is reported: the call throws a
`TypeError`. -/
theorem analyzeSalesData_bonus_scenario_throws :
    (analyzeSalesData (Data.ofArrays tierRecords tierProducts tierSellers)
        defaultOptions).map (fun out => out.map (·.bonus))
      = .ok [.finite 45, .finite 20, .finite 20, .finite 0] ∧
    analyzeSalesData
        (Data.ofArrays (tierRecords ++ [inheritedSellerRecord]) tierProducts tierSellers)
        defaultOptions = .error .TypeError := by
  decide!

/-- C17, at a failing input.  The claim: on every valid input with unique roster ids, a
roster seller without receipts is in the output with revenue 0, profit 0, `sales_count` 0,
no `top_products` and bonus 0.  With `s3`, who has no receipt, added to the roster of the
worked input, and one more receipt, of the unknown seller `toString`, there is no output for
`s3` to be in: the call throws a `TypeError`. -/
theorem analyzeSalesData_idle_seller_throws :
    ((demoSellers ++ [idleSeller]).map (·.id)).Nodup ∧
    idleSeller.id ∉ (demoRecords ++ [inheritedSellerRecord]).map (·.seller_id) ∧
    analyzeSalesData
        (Data.ofArrays (demoRecords ++ [inheritedSellerRecord]) demoProducts
          (demoSellers ++ [idleSeller]))
        defaultOptions = .error .TypeError := by
  decide!

/-- C18. The default revenue strategy returns `sale_price × quantity × (1 - discount /
100)`, all three read from the line item; the result does not depend on the product
argument, is `sale_price × quantity` at discount 0 and is 0 at discount 100. -/
theorem calculateSimpleRevenue_formula (purchase : Item) (product product' : Product) :
    calculateSimpleRevenue purchase product
      = purchase.sale_price * purchase.quantity * (1 - purchase.discount / 100) ∧
    calculateSimpleRevenue purchase product = calculateSimpleRevenue purchase product' ∧
    (purchase.discount = 0 →
      calculateSimpleRevenue purchase product = purchase.sale_price * purchase.quantity) ∧
    (purchase.discount = 100 → calculateSimpleRevenue purchase product = 0) := by
  refine ⟨rfl, rfl, ?_, ?_⟩
  · intro h
    simp [calculateSimpleRevenue, h]
  · intro h
    simp [calculateSimpleRevenue, h]

/-- C18 on two line items of 3 units at 15: without discount and fully discounted. -/
theorem calculateSimpleRevenue_formula_witness :
    calculateSimpleRevenue { sku := "SKU_1", quantity := 3, discount := 0, sale_price := 15 }
      { sku := "SKU_1", purchase_price := 10, sale_price := 15 } = 15 * 3 ∧
    calculateSimpleRevenue { sku := "SKU_1", quantity := 3, discount := 100, sale_price := 15 }
      { sku := "SKU_1", purchase_price := 10, sale_price := 15 } = 0 :=
  ⟨(calculateSimpleRevenue_formula
      { sku := "SKU_1", quantity := 3, discount := 0, sale_price := 15 }
      { sku := "SKU_1", purchase_price := 10, sale_price := 15 }
      { sku := "SKU_1", purchase_price := 10, sale_price := 15 }).2.2.1 rfl,
    (calculateSimpleRevenue_formula
      { sku := "SKU_1", quantity := 3, discount := 100, sale_price := 15 }
      { sku := "SKU_1", purchase_price := 10, sale_price := 15 }
      { sku := "SKU_1", purchase_price := 10, sale_price := 15 }).2.2.2 rfl⟩

/-- C19, at a failing input.  The claim: with unique roster ids and non-negative quantities,
`top_products` lists each catalog SKU the seller sold with its total quantity, the ten best
of them at most.  With the catalog SKU `__proto__`, of which `s1` sold 2 units on one
receipt, the `top_products` of `s1` is empty. -/
theorem analyzeSalesData_proto_sku_lost :
    (protoSellers.map (·.id)).Nodup ∧
    specSkus protoProducts protoRecords "s1" = ["__proto__"] ∧
    specQuantity protoProducts protoRecords "s1" "__proto__" = 2 ∧
    analyzeSalesData (Data.ofArrays protoRecords protoProducts protoSellers) defaultOptions
      = .ok [ { seller_id := "s1", name := "Ann Lee", revenue := 4, profit := .finite 2,
                sales_count := 1, top_products := [], bonus := .finite (3 / 10) } ] := by
  decide!

/-- C20, at a failing input.  The claim: permuting the receipts leaves the numbers of the
output unchanged, among them the multiset of `{sku, quantity}` pairs of each seller.  Two
receipts of `s1`, one of 5 units and one of 3 units of the unknown SKU `constructor`, give
the quantity of `constructor` as the text of the inherited function followed by `53` in one
order and by `35` in the other. -/
theorem analyzeSalesData_record_order_changes_quantity :
    [constructorRecord 5, constructorRecord 3].Perm [constructorRecord 3, constructorRecord 5] ∧
    ∃ a b c, analyzeSalesData
        (Data.ofArrays [constructorRecord 5, constructorRecord 3] demoProducts demoSellers)
        defaultOptions = .ok [a, b] ∧
      analyzeSalesData
        (Data.ofArrays [constructorRecord 3, constructorRecord 5] demoProducts demoSellers)
        defaultOptions = .ok [c, b] ∧
      a.seller_id = "s1" ∧ c.seller_id = "s1" ∧
      a.top_products = [ { sku := "constructor", quantity := .text "constructor" [5, 3] } ] ∧
      c.top_products = [ { sku := "constructor", quantity := .text "constructor" [3, 5] } ] ∧
      a.top_products ≠ c.top_products :=
  ⟨List.Perm.swap _ _ _,
    { seller_id := "s1", name := "Ann Lee", revenue := 8, profit := .nan, sales_count := 2,
      top_products := [ { sku := "constructor", quantity := .text "constructor" [5, 3] } ],
      bonus := .nan },
    { seller_id := "s2", name := "Bob Ray", revenue := 0, profit := .finite 0,
      sales_count := 0, top_products := [], bonus := .finite 0 },
    { seller_id := "s1", name := "Ann Lee", revenue := 8, profit := .nan, sales_count := 2,
      top_products := [ { sku := "constructor", quantity := .text "constructor" [3, 5] } ],
      bonus := .nan },
    by decide!, by decide!, rfl, rfl, rfl, rfl, by decide⟩

end SalesBonus
